import Mathlib

/-!
Shallow embedding of the Whisperrr transcription service core, translated
from the Python sources `app/whisper_service.py`, `app/utils.py`,
`app/models.py`, `app/exceptions.py` and `app/config.py`.

Numbers that are Python floats are modelled as rationals (`ℚ`); Python
exceptions are modelled as an explicit error type threaded through
`Except`; the mutable singleton `WhisperService` is modelled as explicit
state passing over `ServiceState`.  External collaborators (the filesystem,
librosa/soundfile preprocessing, `whisper.load_model` and
`model.transcribe`) are modelled as an explicit environment `Env`
parameter, matching the spec's section 6 collaborator contracts.
-/

namespace Whisperrr

/-- Configuration defaults from `app/config.py` (`Settings`). -/
structure Settings where
  model_size : String := "base"
  max_file_size_mb : Nat := 25
  max_concurrent_transcriptions : Nat := 3
  cleanup_temp_files : Bool := true
  supported_formats : List String := ["mp3", "wav", "m4a", "flac", "ogg", "wma"]
  available_model_sizes : List String := ["tiny", "base", "small", "medium", "large"]
  deriving DecidableEq

/-- The global `settings` instance with the source defaults. -/
def settings : Settings := {}

/-- `Settings.max_file_size_bytes` property: `max_file_size_mb * 1024 * 1024`. -/
def Settings.max_file_size_bytes (s : Settings) : Nat :=
  s.max_file_size_mb * 1024 * 1024

/-- Python's `str.strip()` with no argument: remove leading and trailing
whitespace. -/
def pyStrip (s : String) : String :=
  ⟨((s.data.dropWhile Char.isWhitespace).reverse.dropWhile Char.isWhitespace).reverse⟩

/-- Python's `round` rounds halves to the nearest even integer; other values
to the nearest integer. -/
def round_half_even (q : ℚ) : ℤ :=
  if q - ⌊q⌋ = 1/2 then (if Even ⌊q⌋ then ⌊q⌋ else ⌊q⌋ + 1) else round q

/-- Python `round(q, ndigits)` on exact rationals. -/
def py_round (q : ℚ) (ndigits : Nat) : ℚ :=
  (round_half_even (q * 10 ^ ndigits) : ℚ) / 10 ^ ndigits

/-- The exception classes of `app/exceptions.py`; each constructor carries the
`__init__` parameters of the corresponding class.  `otherException` stands for
any non-Whisperrr Python exception (e.g. `RuntimeError` from a library call),
identified by its `str()` message. -/
inductive WError where
  | invalidAudioFormat (message : String) (file_format : Option String)
      (supported_formats : Option (List String))
  | fileTooLarge (message : String) (file_size : Option Nat) (max_size : Option Nat)
  | modelNotLoaded (message : String) (model_size : Option String)
  | transcriptionFailed (message : String) (original_error : Option String)
      (file_path : Option String)
  | modelLoadFailed (message : String) (model_size : Option String)
      (original_error : Option String)
  | audioProcessingError (message : String) (original_error : Option String)
      (processing_step : Option String)
  | fileSystemError (message : String) (operation : Option String)
      (file_path : Option String)
  | otherException (message : String)
  deriving DecidableEq

/-- `str(e)` of a Whisperrr exception is its `message` (set by
`WhisperrrException.__init__`). -/
def WError.message : WError → String
  | .invalidAudioFormat m _ _ => m
  | .fileTooLarge m _ _ => m
  | .modelNotLoaded m _ => m
  | .transcriptionFailed m _ _ => m
  | .modelLoadFailed m _ _ => m
  | .audioProcessingError m _ _ => m
  | .fileSystemError m _ _ => m
  | .otherException m => m

/-- The `error_code` each `WhisperrrException` subclass passes to its
superclass; a non-Whisperrr exception has none. -/
def WError.errorCode : WError → Option String
  | .invalidAudioFormat _ _ _ => some "INVALID_AUDIO_FORMAT"
  | .fileTooLarge _ _ _ => some "FILE_TOO_LARGE"
  | .modelNotLoaded _ _ => some "MODEL_NOT_LOADED"
  | .transcriptionFailed _ _ _ => some "TRANSCRIPTION_FAILED"
  | .modelLoadFailed _ _ _ => some "MODEL_LOAD_FAILED"
  | .audioProcessingError _ _ _ => some "AUDIO_PROCESSING_ERROR"
  | .fileSystemError _ _ _ => some "FILE_SYSTEM_ERROR"
  | .otherException _ => none

/-- An opaque handle for a loaded Whisper model object. -/
structure ModelHandle where
  id : Nat
  deriving DecidableEq

/-- `TranscriptionSegment` from `app/models.py`. -/
structure TranscriptionSegment where
  start_time : ℚ
  end_time : ℚ
  text : String
  confidence : Option ℚ
  deriving DecidableEq

/-- Pydantic construction of `TranscriptionSegment`: the `validate_end_time`
validator rejects `end_time <= start_time`, and the `confidence` field carries
`ge=0.0, le=1.0` bounds. -/
def TranscriptionSegment.make (start_time end_time : ℚ) (text : String)
    (confidence : Option ℚ) : Except String TranscriptionSegment :=
  if end_time ≤ start_time then .error "End time must be after start time"
  else
    match confidence with
    | some c =>
        if c < 0 ∨ 1 < c then .error "confidence must be between 0 and 1"
        else .ok ⟨start_time, end_time, text, some c⟩
    | none => .ok ⟨start_time, end_time, text, none⟩

/-- `TranscriptionResponse` from `app/models.py`. -/
structure TranscriptionResponse where
  text : String
  language : Option String
  duration : ℚ
  segments : List TranscriptionSegment
  confidence_score : Option ℚ
  model_used : String
  processing_time : ℚ
  deriving DecidableEq

/-- Pydantic construction of `TranscriptionResponse`: `confidence_score`
carries `ge=0.0, le=1.0` bounds and `model_used` is a required `str`
(passing `None` raises a validation error). -/
def TranscriptionResponse.make (text : String) (language : Option String)
    (duration : ℚ) (segments : List TranscriptionSegment)
    (confidence_score : Option ℚ) (model_used : Option String)
    (processing_time : ℚ) : Except String TranscriptionResponse :=
  match model_used with
  | none => .error "model_used is not a valid string"
  | some mu =>
      match confidence_score with
      | some c =>
          if c < 0 ∨ 1 < c then .error "confidence_score must be between 0 and 1"
          else .ok ⟨text, language, duration, segments, some c, mu, processing_time⟩
      | none => .ok ⟨text, language, duration, segments, none, mu, processing_time⟩

/-- `ModelInfoResponse` from `app/models.py`; `last_loaded` is an abstract
timestamp. -/
structure ModelInfoResponse where
  model_size : String
  memory_usage_mb : ℚ
  load_time_seconds : ℚ
  supported_languages : List String
  is_loaded : Bool
  last_loaded : Option ℚ
  deriving DecidableEq

/-- Raw inference output for one segment: a Python dict whose keys
(`start`, `end`, `text`, `avg_logprob`) may each be absent. -/
structure RawSegment where
  start : Option ℚ
  end_ : Option ℚ
  text : Option String
  avg_logprob : Option ℚ
  deriving DecidableEq

/-- Raw inference output of `model.transcribe`: a Python dict whose keys
(`text`, `language`, `segments`) may each be absent. -/
structure WhisperResult where
  text : Option String
  language : Option String
  segments : Option (List RawSegment)
  deriving DecidableEq

/-- Model of one file as seen by `app/utils.py`: existence, size in bytes,
the leading bytes read by `detect_audio_format`, the extension computed by
`get_file_extension` (pure path-string parsing, abstracted here), and the
outcome of probing the file with librosa in `get_audio_info`
(duration and sample rate, or an error message for a corrupt file). -/
structure FileModel where
  fexists : Bool
  size : Nat
  header : List Nat
  extension : String
  probe : Except String (ℚ × Nat)

/-- External collaborators of the core (spec section 6): the filesystem,
the model loader (`whisper.load_model`), audio preprocessing
(librosa/soundfile inside `preprocess_audio`, returning the output path or
an error message), the inference engine (`model.transcribe`), the process
memory gauge (`get_memory_usage`), and the wall-clock durations the source
measures with `time.time()` differences. -/
structure Env where
  fs : String → FileModel
  loadModelExternal : String → Except String ModelHandle
  preprocessExternal : String → Except String String
  inferExternal : String → Option String → ℚ → String → Except String WhisperResult
  memory_usage_mb : ℚ
  loadElapsed : ℚ
  transcribeElapsed : ℚ

/-- `validate_file_format` from `app/utils.py`: the extension is in
`settings.supported_formats_set`. -/
def validate_file_format (fm : FileModel) : Bool :=
  fm.extension ∈ settings.supported_formats

/-- `validate_file_size` from `app/utils.py`. -/
def validate_file_size (file_size : Nat) : Bool :=
  file_size ≤ settings.max_file_size_bytes

/-- `detect_audio_format` from `app/utils.py`: signature sniffing over the
first 12 bytes, falling back to the extension (also when reading fails,
e.g. the file does not exist). -/
def detect_audio_format (fm : FileModel) : String :=
  if !fm.fexists then fm.extension
  else
    let h := fm.header.take 12
    if h.take 3 = [0x49, 0x44, 0x33] ∨ (h.drop 1).take 3 = [0x49, 0x44, 0x33] then "mp3"
    else if h.take 4 = [0x52, 0x49, 0x46, 0x46] ∧ (h.drop 8).take 4 = [0x57, 0x41, 0x56, 0x45] then "wav"
    else if h.take 4 = [0x4F, 0x67, 0x67, 0x53] then "ogg"
    else if h.take 4 = [0x66, 0x4C, 0x61, 0x43] then "flac"
    else if h.take 11 = [0x00, 0x00, 0x00, 0x20, 0x66, 0x74, 0x79, 0x70, 0x4D, 0x34, 0x41] then "m4a"
    else if h.take 4 = [0x30, 0x26, 0xB2, 0x75] then "wma"
    else fm.extension

/-- The dict returned by `get_audio_info`. -/
structure AudioInfo where
  duration : ℚ
  sample_rate : Nat
  file_size : Nat
  file_size_mb : ℚ
  deriving DecidableEq

/-- `get_audio_info` from `app/utils.py`: probes the file with librosa and
wraps any failure as `AudioProcessingError` with step `get_audio_info`. -/
def get_audio_info (env : Env) (file_path : String) : Except WError AudioInfo :=
  let fm := env.fs file_path
  match fm.probe with
  | .error e =>
      .error (.audioProcessingError "Failed to get audio information" (some e)
        (some "get_audio_info"))
  | .ok (duration, sr) =>
      .ok { duration := duration, sample_rate := sr, file_size := fm.size,
            file_size_mb := py_round ((fm.size : ℚ) / (1024 * 1024)) 2 }

/-- The dict returned by `validate_audio_file`. -/
structure FileInfo where
  valid : Bool
  format : String
  file_size : Nat
  file_size_mb : ℚ
  duration : ℚ
  sample_rate : Nat
  deriving DecidableEq

/-- `validate_audio_file` from `app/utils.py`: existence, size ceiling,
format, then probe; `InvalidAudioFormat`, `FileTooLarge` and
`FileSystemError` are re-raised unmodified, any other failure (here: a
failing probe) is wrapped as `AudioProcessingError` with step
`validate_audio_file`. -/
def validate_audio_file (env : Env) (file_path : String) : Except WError FileInfo :=
  let fm := env.fs file_path
  if !fm.fexists then
    .error (.fileSystemError "File does not exist" none (some file_path))
  else if !validate_file_size fm.size then
    .error (.fileTooLarge "File size exceeds maximum allowed size" (some fm.size)
      (some settings.max_file_size_bytes))
  else
    let detected_format := detect_audio_format fm
    if !validate_file_format fm then
      .error (.invalidAudioFormat "Invalid or unsupported audio format"
        (some detected_format) (some settings.supported_formats))
    else
      match get_audio_info env file_path with
      | .error e =>
          .error (.audioProcessingError "Audio file validation failed"
            (some e.message) (some "validate_audio_file"))
      | .ok info =>
          .ok { valid := true, format := detected_format, file_size := fm.size,
                file_size_mb := py_round ((fm.size : ℚ) / (1024 * 1024)) 2,
                duration := info.duration, sample_rate := info.sample_rate }

/-- `preprocess_audio` from `app/utils.py`: `get_audio_info` first, then the
librosa/soundfile pipeline (external), with every failure wrapped as
`AudioProcessingError` with step `preprocess_audio`. -/
def preprocess_audio (env : Env) (file_path : String) : Except WError String :=
  match get_audio_info env file_path with
  | .error e =>
      .error (.audioProcessingError "Failed to preprocess audio" (some e.message)
        (some "preprocess_audio"))
  | .ok _ =>
      match env.preprocessExternal file_path with
      | .error e =>
          .error (.audioProcessingError "Failed to preprocess audio" (some e)
            (some "preprocess_audio"))
      | .ok out => .ok out

/-- The mutable fields of the `WhisperService` singleton
(`app/whisper_service.py`, `__init__`): the loaded model handle, its size,
the load timestamp, the loading flag, the active-transcription counter, and
whether the thread-pool executor has been shut down. -/
structure ServiceState where
  model : Option ModelHandle := none
  model_size : Option String := none
  model_load_time : Option ℚ := none
  is_loading : Bool := false
  active_transcriptions : Int := 0
  executor_shutdown : Bool := false
  deriving DecidableEq

/-- The state right after `WhisperService.__init__`. -/
def initState : ServiceState := {}

/-- The `_supported_languages` list from `WhisperService.__init__`. -/
def supported_languages : List String :=
  ["en", "zh", "de", "es", "ru", "ko", "fr", "ja", "pt", "tr",
   "pl", "ca", "nl", "ar", "sv", "it", "id", "hi", "fi", "vi",
   "he", "uk", "el", "ms", "cs", "ro", "da", "hu", "ta", "no",
   "th", "ur", "hr", "bg", "lt", "la", "mi", "ml", "cy", "sk",
   "te", "fa", "lv", "bn", "sr", "az", "sl", "kn", "et", "mk",
   "br", "eu", "is", "hy", "ne", "mn", "bs", "kk", "sq", "sw",
   "gl", "mr", "pa", "si", "km", "sn", "yo", "so", "af", "oc",
   "ka", "be", "tg", "sd", "gu", "am", "yi", "lo", "uz", "fo",
   "ht", "ps", "tk", "nn", "mt", "sa", "lb", "my", "bo", "tl",
   "mg", "as", "tt", "haw", "ln", "ha", "ba", "jw", "su"]

/-- The dict returned by `load_model` on success. -/
structure LoadReport where
  success : Bool
  model_size : String
  load_time_seconds : ℚ
  memory_usage_mb : ℚ
  message : String
  deriving DecidableEq

/-- `WhisperService._load_model_sync`: runs `whisper.load_model` on the
chosen device.  The underlying loader (an external collaborator, spec
section 6 `ModelLoader`) only accepts the fixed enumerated set of model
sizes and raises for any other name. -/
def _load_model_sync (env : Env) (model_size : String) : Except String ModelHandle :=
  if model_size ∈ settings.available_model_sizes then env.loadModelExternal model_size
  else .error ("Model " ++ model_size ++ " not found")

/-- `WhisperService.load_model`: default the size from settings; fast path
when the same model is already loaded and no load is in progress; fail with
`ModelLoadFailed` when a load is in progress; otherwise set the loading
flag, run `_load_model_sync` on the executor (which raises once the
executor is shut down), record handle/size/timestamp on success, wrap any
failure as `ModelLoadFailed`, and clear the loading flag on every path. -/
def load_model (env : Env) (now : ℚ) (s : ServiceState) (model_size : Option String) :
    ServiceState × Except WError LoadReport :=
  let size := match model_size with | none => settings.model_size | some m => m
  if s.model ≠ none ∧ s.model_size = some size ∧ s.is_loading = false then
    (s, .ok { success := true, model_size := size, load_time_seconds := 0,
              memory_usage_mb := env.memory_usage_mb,
              message := "Model " ++ size ++ " already loaded" })
  else if s.is_loading then
    (s, .error (.modelLoadFailed "Model is already being loaded" (some size) none))
  else
    let s₁ : ServiceState := { s with is_loading := true }
    if s₁.executor_shutdown then
      ({ s₁ with is_loading := false },
       .error (.modelLoadFailed ("Failed to load model " ++ size) (some size)
         (some "cannot schedule new futures after shutdown")))
    else
      match _load_model_sync env size with
      | .ok handle =>
          ({ s₁ with model := some handle, model_size := some size,
                     model_load_time := some now, is_loading := false },
           .ok { success := true, model_size := size,
                 load_time_seconds := py_round env.loadElapsed 3,
                 memory_usage_mb := env.memory_usage_mb,
                 message := "Model " ++ size ++ " loaded successfully" })
      | .error e =>
          ({ s₁ with is_loading := false },
           .error (.modelLoadFailed ("Failed to load model " ++ size) (some size) (some e)))

/-- `WhisperService._transcribe_sync`: builds the options dict — the
`language` key is added only when the hint is truthy (non-`None` and
non-empty) — and calls `model.transcribe`. -/
def _transcribe_sync (env : Env) (file_path : String) (language : Option String)
    (temperature : ℚ) (task : String) : Except String WhisperResult :=
  let lang : Option String :=
    match language with
    | some l => if l = "" then none else some l
    | none => none
  env.inferExternal file_path lang temperature task

/-- The overall-confidence block of `_create_transcription_response`
(`whisper_service.py` lines 320-330): when the `segments` key is present and
the list truthy, average the `avg_logprob` values of the segments that carry
one and clamp `avg + 1` into the unit interval with `max(0, min(1, _))`;
otherwise the confidence stays `None`. -/
def code_confidence (segments : Option (List RawSegment)) : Option ℚ :=
  match segments with
  | some segs =>
      if segs.isEmpty then none
      else
        let confidences := segs.filterMap RawSegment.avg_logprob
        if confidences.isEmpty then none
        else some (max 0 (min 1 (confidences.sum / (confidences.length : ℚ) + 1)))
  | none => none

/-- `WhisperService._create_transcription_response`: builds the pydantic
segments (start/end/text defaulting for missing keys, text stripped), the
overall confidence via `code_confidence`, and the final pydantic response.
Any pydantic validation failure is an error. -/
def _create_transcription_response (s : ServiceState) (whisper_result : WhisperResult)
    (file_info : FileInfo) (processing_time : ℚ) : Except String TranscriptionResponse := do
  let segments ← (whisper_result.segments.getD []).mapM (fun seg =>
    TranscriptionSegment.make (seg.start.getD 0) (seg.end_.getD 0)
      (pyStrip (seg.text.getD "")) none)
  let confidence_score : Option ℚ := code_confidence whisper_result.segments
  TranscriptionResponse.make (pyStrip (whisper_result.text.getD ""))
    whisper_result.language file_info.duration segments confidence_score
    s.model_size (py_round processing_time 3)

/-- The body of the `try` block of `transcribe_audio` (after the counter
increment): validate, preprocess, run inference on the executor (which
raises once the executor is shut down), and assemble the response.  Each
step's exception propagates to the surrounding handler. -/
def transcribe_attempt (env : Env) (s : ServiceState) (file_path : String)
    (language : Option String) (temperature : ℚ) (task : String) :
    Except WError TranscriptionResponse := do
  let file_info ← validate_audio_file env file_path
  let processed ← preprocess_audio env file_path
  let result ←
    if s.executor_shutdown then
      Except.error (WError.otherException "cannot schedule new futures after shutdown")
    else
      match _transcribe_sync env processed language temperature task with
      | .ok r => Except.ok r
      | .error e => Except.error (WError.otherException e)
  match _create_transcription_response s result file_info env.transcribeElapsed with
  | .ok resp => Except.ok resp
  | .error e => Except.error (WError.otherException e)

/-- `WhisperService.transcribe_audio`: raise `ModelNotLoaded` when no model
is resident; load a different model when a truthy `model_size` differs from
the current one (a failure there propagates unwrapped); then increment the
active counter, run the attempt, wrap any exception from it as
`TranscriptionFailed`, and decrement the counter on every exit path. -/
def transcribe_audio (env : Env) (now : ℚ) (s : ServiceState) (file_path : String)
    (model_size : Option String) (language : Option String) (temperature : ℚ)
    (task : String) : ServiceState × Except WError TranscriptionResponse :=
  match s.model with
  | none => (s, .error (.modelNotLoaded "No model is currently loaded" none))
  | some _ =>
      let resolved : ServiceState × Except WError Unit :=
        match model_size with
        | some m =>
            if m ≠ "" ∧ some m ≠ s.model_size then
              let (s₁, r) := load_model env now s (some m)
              match r with
              | .ok _ => (s₁, .ok ())
              | .error e => (s₁, .error e)
            else (s, .ok ())
        | none => (s, .ok ())
      match resolved with
      | (s₁, .error e) => (s₁, .error e)
      | (s₁, .ok _) =>
          let s₂ : ServiceState :=
            { s₁ with active_transcriptions := s₁.active_transcriptions + 1 }
          let outcome := transcribe_attempt env s₂ file_path language temperature task
          let s₃ : ServiceState :=
            { s₂ with active_transcriptions := s₂.active_transcriptions - 1 }
          match outcome with
          | .ok resp => (s₃, .ok resp)
          | .error e =>
              (s₃, .error (.transcriptionFailed "Transcription failed"
                (some e.message) (some file_path)))

/-- `WhisperService.get_model_info`: `self._model_size or "none"` (Python
`or` falls through on `None` and on the empty string), `is_loaded` is
`self._model is not None`, and `load_time_seconds`/`last_loaded` treat a
falsy `_model_load_time` (absent or `0.0`) as unset. -/
def get_model_info (env : Env) (now : ℚ) (s : ServiceState) : ModelInfoResponse :=
  { model_size := match s.model_size with
      | none => "none"
      | some sz => if sz = "" then "none" else sz
    memory_usage_mb := env.memory_usage_mb
    load_time_seconds := match s.model_load_time with
      | none => 0
      | some t => if t = 0 then 0 else now - t
    supported_languages := supported_languages
    is_loaded := s.model.isSome
    last_loaded := match s.model_load_time with
      | none => none
      | some t => if t = 0 then none else some t }

/-- The `asyncio.sleep(1)` interval of the drain loop in
`WhisperService.cleanup`, in time units. -/
def cleanup_poll_interval : Nat := 1

/-- The polling loop of `WhisperService.cleanup`
(`while self._active_transcriptions > 0: await asyncio.sleep(1)`).
Each list element is the net change of the counter made by concurrently
finishing transcriptions during one sleep interval.  Returns the state at
loop exit and the total time slept, or `none` when the schedule is
exhausted with the counter still positive (the loop has not terminated). -/
def cleanup_loop : List Int → ServiceState → Option (ServiceState × Nat)
  | [], s => if s.active_transcriptions > 0 then none else some (s, 0)
  | d :: ds, s =>
      if s.active_transcriptions > 0 then
        match cleanup_loop ds
          { s with active_transcriptions := s.active_transcriptions + d } with
        | none => none
        | some (s', t) => some (s', t + cleanup_poll_interval)
      else some (s, 0)

/-- `WhisperService.cleanup`: drain the active counter by polling, then shut
the executor down, then clear the model handle and recorded size (when a
model is resident).  `none` means the drain loop did not terminate within
the given schedule. -/
def cleanup (s : ServiceState) (ds : List Int) : Option (ServiceState × Nat) :=
  match cleanup_loop ds s with
  | none => none
  | some (s₁, t) =>
      let s₂ : ServiceState := { s₁ with executor_shutdown := true }
      let s₃ : ServiceState :=
        if s₂.model.isSome then { s₂ with model := none, model_size := none } else s₂
      some (s₃, t)

/-- A well-formed mp3 file: exists, 2 MiB, ID3 header, 12 s audio. -/
def fileOk : FileModel :=
  { fexists := true, size := 2097152, header := [0x49, 0x44, 0x33, 0x04],
    extension := "mp3", probe := .ok (12, 44100) }

/-- A raw inference result with two segments carrying log-probabilities
`-0.1` and `-0.3`. -/
def wrOk : WhisperResult :=
  { text := some " hello world "
    language := some "en"
    segments := some
      [{ start := some 0, end_ := some (3/2), text := some " hello ",
         avg_logprob := some (-1/10) },
       { start := some (3/2), end_ := some 3, text := some "world",
         avg_logprob := some (-3/10) }] }

/-- A benign environment: every path is `fileOk`, loads and preprocessing
succeed, inference returns `wrOk`. -/
def envA : Env :=
  { fs := fun _ => fileOk
    loadModelExternal := fun _ => .ok ⟨0⟩
    preprocessExternal := fun p => .ok (p ++ ".norm.wav")
    inferExternal := fun _ _ _ _ => .ok wrOk
    memory_usage_mb := 0
    loadElapsed := 0
    transcribeElapsed := 0 }

/-- `envA` with a filesystem on which no file exists. -/
def envMissing : Env := { envA with fs := fun _ => { fileOk with fexists := false } }

/-- `envA` with an external model loader that always fails. -/
def envLoadFail : Env :=
  { envA with loadModelExternal := fun _ => .error "out of memory" }

/-- A raw inference result with one segment missing its `start` and `end`
keys (both default to `0.0` in the assembler). -/
def wrBad : WhisperResult :=
  { text := some "hi", language := some "en",
    segments := some [{ start := none, end_ := none, text := some "hi",
                        avg_logprob := none }] }

/-- `envA` with inference returning `wrBad`. -/
def envBadSeg : Env :=
  { envA with inferExternal := fun _ _ _ _ => .ok wrBad }

/-- A state with the `base` model resident and idle. -/
def sLoaded : ServiceState :=
  { initState with model := some ⟨0⟩, model_size := some "base", model_load_time := some 5 }

/-- A state in which a load is in progress. -/
def sBusy : ServiceState := { initState with is_loading := true }

/-- The `validate_audio_file` dict for `fileOk`. -/
def fiA : FileInfo :=
  { valid := true, format := "mp3", file_size := 2097152, file_size_mb := 2,
    duration := 12, sample_rate := 44100 }

theorem pyStrip_hello_world : pyStrip " hello world " = "hello world" := by decide

theorem pyStrip_hello : pyStrip " hello " = "hello" := by decide

theorem pyStrip_world : pyStrip "world" = "world" := by decide

theorem pyStrip_hi : pyStrip "hi" = "hi" := by decide

/-- The model size `load_model` resolves from its optional argument. -/
def resolve_size (model_size : Option String) : String :=
  match model_size with
  | none => settings.model_size
  | some m => m

theorem load_model_resolve (env : Env) (now : ℚ) (s : ServiceState)
    (ms : Option String) :
    load_model env now s ms = load_model env now s (some (resolve_size ms)) := by
  cases ms <;> rfl

/-- `load_model` never touches the active-transcription counter. -/
theorem load_model_active (env : Env) (now : ℚ) (s : ServiceState)
    (ms : Option String) :
    (load_model env now s ms).1.active_transcriptions = s.active_transcriptions := by
  unfold load_model
  dsimp only
  split
  · rfl
  · split
    · rfl
    · split
      · rfl
      · split <;> rfl

/-- `load_model` never touches the executor flag. -/
theorem load_model_executor (env : Env) (now : ℚ) (s : ServiceState)
    (ms : Option String) :
    (load_model env now s ms).1.executor_shutdown = s.executor_shutdown := by
  unfold load_model
  dsimp only
  split
  · rfl
  · split
    · rfl
    · split
      · rfl
      · split <;> rfl

/-- Every error `load_model` returns is a `ModelLoadFailed`. -/
theorem load_model_error_shape (env : Env) (now : ℚ) (s : ServiceState)
    (ms : Option String) (e : WError) (h : (load_model env now s ms).2 = .error e) :
    ∃ msg sz oe, e = .modelLoadFailed msg sz oe := by
  unfold load_model at h
  dsimp only at h
  split at h
  · exact absurd h (by simp)
  · split at h
    · exact ⟨_, _, _, (Except.error.injEq _ _).mp h.symm⟩
    · split at h
      · exact ⟨_, _, _, (Except.error.injEq _ _).mp h.symm⟩
      · split at h
        · exact absurd h (by simp)
        · exact ⟨_, _, _, (Except.error.injEq _ _).mp h.symm⟩

/-- A successful `_load_model_sync` only happens for an enumerated size. -/
theorem _load_model_sync_mem (env : Env) (sz : String) (h : ModelHandle)
    (hs : _load_model_sync env sz = .ok h) : sz ∈ settings.available_model_sizes := by
  unfold _load_model_sync at hs
  split at hs
  · assumption
  · exact absurd hs (by simp)

/-- After `load_model`, either the handle and recorded size are unchanged, or
the load succeeded and both were replaced for the resolved size. -/
theorem load_model_model_cases (env : Env) (now : ℚ) (s : ServiceState)
    (ms : Option String) :
    ((load_model env now s ms).1.model = s.model ∧
     (load_model env now s ms).1.model_size = s.model_size) ∨
    (∃ h, _load_model_sync env (resolve_size ms) = .ok h ∧
      (load_model env now s ms).1.model = some h ∧
      (load_model env now s ms).1.model_size = some (resolve_size ms)) := by
  unfold load_model resolve_size
  dsimp only
  split
  · exact Or.inl ⟨rfl, rfl⟩
  · split
    · exact Or.inl ⟨rfl, rfl⟩
    · split
      · exact Or.inl ⟨rfl, rfl⟩
      · rename_i hsync
        split
        · rename_i h hh
          exact Or.inr ⟨h, by cases ms <;> simpa using hh, rfl, by cases ms <;> rfl⟩
        · exact Or.inl ⟨rfl, rfl⟩

/-- The four shapes the post-state of `transcribe_audio` can take: untouched
(no model), counter bumped and restored, or the post-state of the nested
`load_model` (with the counter churn only after a successful nested load). -/
theorem transcribe_audio_fst_shape (env : Env) (now : ℚ) (s : ServiceState)
    (fp : String) (ms lang : Option String) (temp : ℚ) (task : String) :
    (transcribe_audio env now s fp ms lang temp task).1 = s ∨
    (transcribe_audio env now s fp ms lang temp task).1 =
      { s with active_transcriptions := s.active_transcriptions + 1 - 1 } ∨
    (∃ m, ms = some m ∧
      ((transcribe_audio env now s fp ms lang temp task).1 = (load_model env now s (some m)).1 ∨
       (transcribe_audio env now s fp ms lang temp task).1 =
         { (load_model env now s (some m)).1 with
           active_transcriptions :=
             (load_model env now s (some m)).1.active_transcriptions + 1 - 1 })) := by
  unfold transcribe_audio
  rcases hm : s.model with _ | mh
  · simp [hm]
  · simp only [hm]
    rcases ms with _ | m
    · cases hout : transcribe_attempt env
          { s with active_transcriptions := s.active_transcriptions + 1 } fp lang temp task <;>
        simp [hout]
    · by_cases hc : m ≠ "" ∧ some m ≠ s.model_size
      · rcases hload : load_model env now s (some m) with ⟨s₁, r⟩
        rcases r with e | v
        · refine Or.inr (Or.inr ⟨m, rfl, Or.inl ?_⟩)
          simp [hc, hload]
        · refine Or.inr (Or.inr ⟨m, rfl, Or.inr ?_⟩)
          cases hout : transcribe_attempt env
              { s₁ with active_transcriptions := s₁.active_transcriptions + 1 } fp lang temp task <;>
            simp [hc, hload, hout]
      · cases hout : transcribe_attempt env
            { s with active_transcriptions := s.active_transcriptions + 1 } fp lang temp task <;>
          simp [hc, hout]

/-- `transcribe_audio` restores the active-transcription counter on every
exit path. -/
theorem transcribe_audio_active (env : Env) (now : ℚ) (s : ServiceState)
    (fp : String) (ms lang : Option String) (temp : ℚ) (task : String) :
    (transcribe_audio env now s fp ms lang temp task).1.active_transcriptions
      = s.active_transcriptions := by
  rcases transcribe_audio_fst_shape env now s fp ms lang temp task with h | h | ⟨m, _, h | h⟩
  · rw [h]
  · rw [h]; simp
  · rw [h, load_model_active]
  · rw [h]; simp [load_model_active]

/-- C1: every call to `transcribe_audio` leaves the active-request counter at
its pre-call value, on the success path and on every failure path; in
particular a call with no model loaded fails with `ModelNotLoaded` and the
whole state — counter included — is unchanged. -/
theorem claim_c1_counter_frame :
    ∀ (env : Env) (now : ℚ) (s : ServiceState) (fp : String) (ms lang : Option String)
      (temp : ℚ) (task : String),
      (transcribe_audio env now s fp ms lang temp task).1.active_transcriptions
          = s.active_transcriptions ∧
      (s.model = none →
        transcribe_audio env now s fp ms lang temp task
          = (s, .error (.modelNotLoaded "No model is currently loaded" none))) := by
  intro env now s fp ms lang temp task
  refine ⟨transcribe_audio_active env now s fp ms lang temp task, ?_⟩
  intro h
  unfold transcribe_audio
  simp [h]

theorem claim_c1_witness :
    (transcribe_audio envA 0 initState "a.mp3" none none 0 "transcribe").1.active_transcriptions
        = 0 ∧
    transcribe_audio envA 0 initState "a.mp3" none none 0 "transcribe"
      = (initState, .error (.modelNotLoaded "No model is currently loaded" none)) := by
  have h := claim_c1_counter_frame envA 0 initState "a.mp3" none none 0 "transcribe"
  exact ⟨h.1, h.2 rfl⟩

/-- C2 counterexample: a `load_model` call made while a load is in progress
fails with the `ModelLoadFailed` kind (error code `MODEL_LOAD_FAILED`), not
with a distinct `ModelBusy` kind — no such kind exists in the code. -/
theorem claim_c2_counterexample :
    load_model envA 0 sBusy (some "base")
      = (sBusy, .error (.modelLoadFailed "Model is already being loaded" (some "base") none)) ∧
    WError.errorCode (.modelLoadFailed "Model is already being loaded" (some "base") none)
      = some "MODEL_LOAD_FAILED" := by
  constructor
  · simp [load_model, sBusy, initState, envA, settings]
  · rfl

/-- C2 (amended): if a load is already in progress, `load_model` fails fast
with `ModelLoadFailed` (message `Model is already being loaded`), the same
error kind as an actual load failure rather than a distinct `ModelBusy`
kind; the second load is not queued and the state is unchanged. -/
theorem claim_c2_amended :
    ∀ (env : Env) (now : ℚ) (s : ServiceState) (ms : Option String),
      s.is_loading = true →
      load_model env now s ms
        = (s, .error (.modelLoadFailed "Model is already being loaded"
            (some (resolve_size ms)) none)) := by
  intro env now s ms h
  rw [load_model_resolve]
  unfold load_model
  simp [h, resolve_size]

theorem claim_c2_witness :
    load_model envA 0 sBusy (some "tiny")
      = (sBusy, .error (.modelLoadFailed "Model is already being loaded" (some "tiny") none)) :=
  claim_c2_amended envA 0 sBusy (some "tiny") rfl

/-- C3 counterexample: with the `base` model resident, a failing
`load_model "small"` propagates `ModelLoadFailed` (with requested size and
cause) but does NOT transition to Unloaded: the prior handle and recorded
size survive, and a status query still reports the old model as loaded. -/
theorem claim_c3_counterexample :
    load_model envLoadFail 9 sLoaded (some "small")
      = (sLoaded, .error (.modelLoadFailed "Failed to load model small" (some "small")
          (some "out of memory"))) ∧
    sLoaded.model = some ⟨0⟩ ∧ sLoaded.model_size = some "base" ∧
    (get_model_info envLoadFail 20 (load_model envLoadFail 9 sLoaded (some "small")).1).is_loaded
        = true ∧
    (get_model_info envLoadFail 20 (load_model envLoadFail 9 sLoaded (some "small")).1).model_size
        = "base" := by
  have h1 : load_model envLoadFail 9 sLoaded (some "small")
      = (sLoaded, .error (.modelLoadFailed "Failed to load model small" (some "small")
          (some "out of memory"))) := by
    simp [load_model, _load_model_sync, envLoadFail, envA, sLoaded, initState, settings]
  refine ⟨h1, rfl, rfl, ?_, ?_⟩
  · rw [h1]
    rfl
  · rw [h1]
    rfl

/-- C3 (amended): when the underlying load fails (off the fast path, no load
in progress), `load_model` clears only the loading flag and propagates
`ModelLoadFailed` carrying the requested size and the underlying cause; the
model handle and recorded size keep their pre-call values — so from the
unloaded state the service stays unloaded, but a previously loaded model
stays resident. -/
theorem claim_c3_amended :
    ∀ (env : Env) (now : ℚ) (s : ServiceState) (ms : Option String) (e : String),
      s.is_loading = false → s.executor_shutdown = false →
      ¬(s.model ≠ none ∧ s.model_size = some (resolve_size ms)) →
      _load_model_sync env (resolve_size ms) = .error e →
      load_model env now s ms
        = (s, .error (.modelLoadFailed ("Failed to load model " ++ resolve_size ms)
            (some (resolve_size ms)) (some e))) := by
  intro env now s ms e hl hx hfast hsync
  rcases s with ⟨mo, msz, mlt, il, act, ex⟩
  simp only at hl hx hfast ⊢
  subst hl
  subst hx
  rw [load_model_resolve]
  unfold load_model
  rcases not_and_or.mp hfast with h | h
  · have h' : mo = none := not_not.mp h
    subst h'
    simp [hsync]
  · simp [h, hsync]

theorem claim_c3_witness :
    load_model envLoadFail 9 initState (some "small")
      = (initState, .error (.modelLoadFailed "Failed to load model small" (some "small")
          (some "out of memory"))) := by
  have h := claim_c3_amended envLoadFail 9 initState (some "small") "out of memory"
    rfl rfl (by decide)
    (by simp [_load_model_sync, envLoadFail, envA, settings, resolve_size])
  simpa [resolve_size] using h

/-- A validation failure inside the `try` block aborts the attempt with
that very error. -/
theorem transcribe_attempt_validate_error (env : Env) (s : ServiceState)
    (fp : String) (lang : Option String) (temp : ℚ) (task : String) (e : WError)
    (h : validate_audio_file env fp = .error e) :
    transcribe_attempt env s fp lang temp task = .error e := by
  unfold transcribe_attempt
  simp [h, bind, Except.bind]

/-- When the attempt fails, `transcribe_audio` (called without a model-size
override) wraps the failure as `TranscriptionFailed` with the original
message and the input path, and restores the counter. -/
theorem transcribe_audio_attempt_error (env : Env) (now : ℚ) (s : ServiceState)
    (fp : String) (lang : Option String) (temp : ℚ) (task : String) (e : WError)
    (hm : s.model ≠ none)
    (h : transcribe_attempt env
      { s with active_transcriptions := s.active_transcriptions + 1 } fp lang temp task
      = .error e) :
    transcribe_audio env now s fp none lang temp task
      = ({ s with active_transcriptions := s.active_transcriptions + 1 - 1 },
         .error (.transcriptionFailed "Transcription failed" (some e.message) (some fp))) := by
  unfold transcribe_audio
  rcases hmo : s.model with _ | mh
  · exact absurd hmo hm
  · rw [hmo] at h
    simp [hmo, h]

/-- C4 counterexample: a validation failure (missing file, kind
`FileSystemError`) is NOT surfaced with its own kind by `transcribe_audio`:
the call returns `TranscriptionFailed` wrapping only the original message. -/
theorem claim_c4_counterexample :
    validate_audio_file envMissing "a.mp3"
      = .error (.fileSystemError "File does not exist" none (some "a.mp3")) ∧
    (transcribe_audio envMissing 0 sLoaded "a.mp3" none none 0 "transcribe").2
      = .error (.transcriptionFailed "Transcription failed" (some "File does not exist")
          (some "a.mp3")) := by
  constructor
  · simp [validate_audio_file, envMissing, envA, fileOk]
  · simp [transcribe_audio, transcribe_attempt, validate_audio_file, envMissing, envA,
      fileOk, sLoaded, initState, WError.message, bind, Except.bind]

/-- C4 (amended): `validate_audio_file` itself raises kind-preserving errors
(`FileSystemError` for a missing file, `FileTooLarge` over the size ceiling,
`InvalidAudioFormat` for an unsupported format), but the blanket exception
handler of `transcribe_audio` re-wraps every failure raised after the
counter increment — validation failures included — into
`TranscriptionFailed` carrying the original message and the file path. -/
theorem claim_c4_amended :
    ∀ (env : Env) (now : ℚ) (s : ServiceState) (fp : String) (lang : Option String)
      (temp : ℚ) (task : String) (e : WError),
      (s.model ≠ none → validate_audio_file env fp = .error e →
        (transcribe_audio env now s fp none lang temp task).2
          = .error (.transcriptionFailed "Transcription failed" (some e.message) (some fp))) ∧
      ((env.fs fp).fexists = false →
        validate_audio_file env fp
          = .error (.fileSystemError "File does not exist" none (some fp))) ∧
      ((env.fs fp).fexists = true → ¬ validate_file_size (env.fs fp).size →
        validate_audio_file env fp
          = .error (.fileTooLarge "File size exceeds maximum allowed size"
              (some (env.fs fp).size) (some settings.max_file_size_bytes))) ∧
      ((env.fs fp).fexists = true → validate_file_size (env.fs fp).size →
        ¬ validate_file_format (env.fs fp) →
        validate_audio_file env fp
          = .error (.invalidAudioFormat "Invalid or unsupported audio format"
              (some (detect_audio_format (env.fs fp))) (some settings.supported_formats))) := by
  intro env now s fp lang temp task e
  refine ⟨?_, ?_, ?_, ?_⟩
  · intro hm hv
    rw [transcribe_audio_attempt_error env now s fp lang temp task e hm
      (transcribe_attempt_validate_error env _ fp lang temp task e hv)]
  · intro hex
    unfold validate_audio_file
    simp [hex]
  · intro hex hsize
    unfold validate_audio_file
    simp [hex, hsize]
  · intro hex hsize hfmt
    unfold validate_audio_file
    simp [hex, hsize, hfmt]

theorem claim_c4_witness :
    (transcribe_audio envMissing 0 sLoaded "big.mp3" none none 0 "transcribe").2
      = .error (.transcriptionFailed "Transcription failed" (some "File does not exist")
          (some "big.mp3")) := by
  have h := claim_c4_amended envMissing 0 sLoaded "big.mp3" none 0 "transcribe"
    (.fileSystemError "File does not exist" none (some "big.mp3"))
  exact h.1 (by decide) (h.2.1 rfl)


/-- A failing nested `load_model` propagates out of `transcribe_audio`
unwrapped, together with its post-state. -/
theorem transcribe_audio_load_error (env : Env) (now : ℚ) (s : ServiceState)
    (fp m : String) (lang : Option String) (temp : ℚ) (task : String)
    (s₁ : ServiceState) (e : WError)
    (hm : s.model ≠ none) (hne : m ≠ "") (hms : some m ≠ s.model_size)
    (hload : load_model env now s (some m) = (s₁, .error e)) :
    transcribe_audio env now s fp (some m) lang temp task = (s₁, .error e) := by
  unfold transcribe_audio
  rcases hmo : s.model with _ | mh
  · exact absurd hmo hm
  · simp [hmo, hne, hms, hload]

/-- C5 counterexample: with no model loaded and a `model_size` override that
the loader would satisfy, `transcribe_audio` raises `ModelNotLoaded` without
ever invoking `load_model` — the resolution step the claim requires first
would have succeeded. -/
theorem claim_c5_counterexample :
    transcribe_audio envA 0 initState "a.mp3" (some "base") none 0 "transcribe"
      = (initState, .error (.modelNotLoaded "No model is currently loaded" none)) ∧
    (load_model envA 0 initState (some "base")).1.model = some ⟨0⟩ ∧
    (load_model envA 0 initState (some "base")).2
      = .ok ({ success := true, model_size := "base", load_time_seconds := 0,
               memory_usage_mb := 0, message := "Model base loaded successfully" }) := by
  refine ⟨?_, ?_, ?_⟩
  · simp [transcribe_audio, initState]
  · norm_num [load_model, _load_model_sync, envA, initState, settings]
  · norm_num [load_model, _load_model_sync, envA, initState, settings,
      py_round, round_half_even, round_eq]
    rfl

/-- C5 (amended): `transcribe_audio` requires a resident model first, raising
`ModelNotLoaded` immediately — without invoking `load_model` — whenever none
is loaded; only with a model already resident and a truthy requested size
different from the current one does it invoke `load_model` and await it
before transcribing (a load failure propagating unwrapped); consequently
`ModelNotLoaded` is returned exactly when no model was resident at entry. -/
theorem claim_c5_amended :
    ∀ (env : Env) (now : ℚ) (s : ServiceState) (fp m : String)
      (lang : Option String) (temp : ℚ) (task : String),
      (s.model = none →
        transcribe_audio env now s fp (some m) lang temp task
          = (s, .error (.modelNotLoaded "No model is currently loaded" none))) ∧
      (s.model ≠ none → m ≠ "" → some m ≠ s.model_size →
        ∀ s₁ e, load_model env now s (some m) = (s₁, .error e) →
          transcribe_audio env now s fp (some m) lang temp task = (s₁, .error e)) ∧
      (∀ msg msz, (transcribe_audio env now s fp (some m) lang temp task).2
          = .error (.modelNotLoaded msg msz) → s.model = none) := by
  intro env now s fp m lang temp task
  refine ⟨?_, ?_, ?_⟩
  · intro h
    unfold transcribe_audio
    simp [h]
  · intro hm hne hms s₁ e hload
    exact transcribe_audio_load_error env now s fp m lang temp task s₁ e hm hne hms hload
  · intro msg msz h
    rcases hmo : s.model with _ | mh
    · rfl
    · exfalso
      unfold transcribe_audio at h
      rw [hmo] at h
      by_cases hc : m ≠ "" ∧ some m ≠ s.model_size
      · rcases hload : load_model env now s (some m) with ⟨s₁, r⟩
        rcases r with e | v
        · simp only [hc, and_self, if_pos, hload] at h
          rcases load_model_error_shape env now s (some m) e (by rw [hload]) with ⟨a, b, c, hE⟩
          subst hE
          simp [hc] at h
        · cases hout : transcribe_attempt env
              { s₁ with active_transcriptions := s₁.active_transcriptions + 1 }
              fp lang temp task <;>
            simp [hc, hload, hout] at h
      · cases hout : transcribe_attempt env
            { s with active_transcriptions := s.active_transcriptions + 1 }
            fp lang temp task <;>
          simp [hc, hout] at h

theorem claim_c5_witness :
    transcribe_audio envA 0 initState "b.mp3" (some "small") none 0 "transcribe"
      = (initState, .error (.modelNotLoaded "No model is currently loaded" none)) ∧
    transcribe_audio envLoadFail 3 sLoaded "b.mp3" (some "small") none 0 "transcribe"
      = (sLoaded, .error (.modelLoadFailed "Failed to load model small" (some "small")
          (some "out of memory"))) := by
  constructor
  · exact (claim_c5_amended envA 0 initState "b.mp3" "small" none 0 "transcribe").1 rfl
  · refine (claim_c5_amended envLoadFail 3 sLoaded "b.mp3" "small" none 0 "transcribe").2.1
      (by decide) (by decide) (by decide) sLoaded
      (.modelLoadFailed "Failed to load model small" (some "small") (some "out of memory")) ?_
    simp [load_model, _load_model_sync, envLoadFail, envA, sLoaded, initState, settings]


/-- Modelled from the spec: the ResultAssembler confidence derivation —
average the available per-segment log-probabilities and map the average into
a bounded confidence via clamp(avg_logprob + 1, 0, 1); if no
log-probabilities are present, the confidence is absent (not zero). -/
def confidence_spec (raw : List RawSegment) : Option ℚ :=
  let lps := raw.filterMap RawSegment.avg_logprob
  if lps.isEmpty then none
  else some (max 0 (min 1 (lps.sum / (lps.length : ℚ) + 1)))

/-- The confidence block of the code agrees with the spec derivation over
the raw segment list (a missing `segments` key reads as the empty list). -/
theorem code_confidence_eq_spec (segments : Option (List RawSegment)) :
    code_confidence segments = confidence_spec (segments.getD []) := by
  rcases segments with _ | segs
  · simp [code_confidence, confidence_spec]
  · rcases segs with _ | ⟨a, l⟩
    · simp [code_confidence, confidence_spec]
    · simp [code_confidence, confidence_spec]

/-- A successfully assembled response carries exactly the code's confidence
value. -/
theorem create_response_confidence (s : ServiceState) (wr : WhisperResult)
    (fi : FileInfo) (pt : ℚ) (resp : TranscriptionResponse)
    (h : _create_transcription_response s wr fi pt = .ok resp) :
    resp.confidence_score = code_confidence wr.segments := by
  unfold _create_transcription_response at h
  generalize hseg : (wr.segments.getD []).mapM (fun seg =>
      TranscriptionSegment.make (seg.start.getD 0) (seg.end_.getD 0)
        (pyStrip (seg.text.getD "")) none) = mres at h
  clear hseg
  rcases mres with e | segl
  · simp [bind, Except.bind] at h
  · simp only [bind, Except.bind] at h
    unfold TranscriptionResponse.make at h
    split at h
    · exact absurd h (by simp)
    · split at h
      · rename_i c heq
        split at h
        · exact absurd h (by simp)
        · simp only [Except.ok.injEq] at h
          subst h
          simp [heq]
      · rename_i heq
        simp only [Except.ok.injEq] at h
        subst h
        simp [heq]

/-- The assembled response for `wrOk`. -/
def respOk : TranscriptionResponse :=
  { text := "hello world", language := some "en", duration := 12,
    segments := [⟨0, 3/2, "hello", none⟩, ⟨3/2, 3, "world", none⟩],
    confidence_score := some (4/5), model_used := "base", processing_time := 0 }

theorem create_respOk :
    _create_transcription_response sLoaded wrOk fiA 0 = .ok respOk := by
  unfold _create_transcription_response
  simp only [sLoaded, initState, wrOk, fiA, respOk]
  simp [code_confidence, TranscriptionResponse.make, TranscriptionSegment.make,
    bind, Except.bind, pure, Except.pure, List.mapM, List.mapM.loop, List.filterMap,
    pyStrip_hello_world, pyStrip_hello, pyStrip_world, py_round, round_half_even]
  norm_num [round_eq]

/-- C6: over the raw segments that carry a log-probability, the assembled
confidence equals clamp(average + 1, 0, 1) (the spec derivation); the
example log-probabilities [-0.1, -0.3] yield exactly 0.8; with no
log-probability — in particular an empty raw segment list — the confidence
is absent (`none`, not zero) and the empty list assembles into an empty
segment sequence without error. -/
theorem claim_c6_confidence :
    (∀ (s : ServiceState) (wr : WhisperResult) (fi : FileInfo) (pt : ℚ)
        (resp : TranscriptionResponse),
      _create_transcription_response s wr fi pt = .ok resp →
        resp.confidence_score = confidence_spec (wr.segments.getD [])) ∧
    (∃ resp, _create_transcription_response sLoaded wrOk fiA 0 = .ok resp ∧
        resp.confidence_score = some (0.8 : ℚ)) ∧
    (∀ (s : ServiceState) (fi : FileInfo) (pt : ℚ) (txt lang : Option String)
        (m : String), s.model_size = some m →
      ∃ resp, _create_transcription_response s ⟨txt, lang, some []⟩ fi pt = .ok resp ∧
        resp.segments = [] ∧ resp.confidence_score = none) := by
  refine ⟨?_, ?_, ?_⟩
  · intro s wr fi pt resp h
    rw [create_response_confidence s wr fi pt resp h, code_confidence_eq_spec]
  · exact ⟨respOk, create_respOk, by norm_num [respOk]⟩
  · intro s fi pt txt lang m hms
    refine ⟨⟨pyStrip (txt.getD ""), lang, fi.duration, [], none, m, py_round pt 3⟩, ?_, rfl, rfl⟩
    unfold _create_transcription_response
    simp [hms, code_confidence, TranscriptionResponse.make, bind, Except.bind,
      pure, Except.pure, List.mapM, List.mapM.loop]

theorem claim_c6_witness :
    respOk.confidence_score = confidence_spec (wrOk.segments.getD []) :=
  (claim_c6_confidence).1 sLoaded wrOk fiA 0 respOk create_respOk


/-- What the drain loop guarantees at exit: the counter is no longer
positive, nothing but the counter changed, and the time slept is bounded by
one interval per schedule entry. -/
theorem cleanup_loop_spec :
    ∀ (ds : List Int) (s s₁ : ServiceState) (t : Nat),
      cleanup_loop ds s = some (s₁, t) →
      s₁.active_transcriptions ≤ 0 ∧ s₁.model = s.model ∧
      s₁.model_size = s.model_size ∧ s₁.executor_shutdown = s.executor_shutdown ∧
      t ≤ ds.length * cleanup_poll_interval := by
  intro ds
  induction ds with
  | nil =>
    intro s s₁ t h
    unfold cleanup_loop at h
    split at h
    · exact absurd h (by simp)
    · rename_i hpos
      simp only [Option.some.injEq, Prod.mk.injEq] at h
      obtain ⟨rfl, rfl⟩ := h
      exact ⟨by omega, rfl, rfl, rfl, by simp⟩
  | cons d ds ih =>
    intro s s₁ t h
    unfold cleanup_loop at h
    split at h
    · rcases hrec : cleanup_loop ds
          { s with active_transcriptions := s.active_transcriptions + d } with _ | ⟨s₂, t₂⟩
      · rw [hrec] at h
        exact absurd h (by simp)
      · rw [hrec] at h
        simp only [Option.some.injEq, Prod.mk.injEq] at h
        obtain ⟨rfl, rfl⟩ := h
        obtain ⟨h1, h2, h3, h4, h5⟩ := ih _ _ _ hrec
        refine ⟨h1, h2, h3, h4, ?_⟩
        simp only [List.length_cons, cleanup_poll_interval] at h5 ⊢
        omega
    · rename_i hpos
      simp only [Option.some.injEq, Prod.mk.injEq] at h
      obtain ⟨rfl, rfl⟩ := h
      exact ⟨by omega, rfl, rfl, rfl, by simp⟩

/-- C7: whenever `cleanup` completes, the drain loop first ran to a state
whose active counter had reached zero (non-positive in general, exactly zero
from a non-negative counter) without touching the model or the executor,
each poll sleeping one `cleanup_poll_interval`; only then were the executor
shut down and the model cleared, after which a model-info query reports
`is_loaded = false`. -/
theorem claim_c7_cleanup_drains :
    ∀ (s : ServiceState) (ds : List Int) (s' : ServiceState) (t : Nat),
      cleanup s ds = some (s', t) →
      ∃ s₁, cleanup_loop ds s = some (s₁, t) ∧
        s₁.active_transcriptions ≤ 0 ∧
        (0 ≤ s₁.active_transcriptions → s₁.active_transcriptions = 0) ∧
        s₁.model = s.model ∧ s₁.executor_shutdown = s.executor_shutdown ∧
        s'.model = none ∧ s'.executor_shutdown = true ∧
        (∀ (env : Env) (now : ℚ), (get_model_info env now s').is_loaded = false) ∧
        t ≤ ds.length * cleanup_poll_interval := by
  intro s ds s' t h
  unfold cleanup at h
  rcases hl : cleanup_loop ds s with _ | ⟨s₁, t₁⟩
  · rw [hl] at h
    exact absurd h (by simp)
  · rw [hl] at h
    simp only [Option.some.injEq, Prod.mk.injEq] at h
    obtain ⟨hs', rfl⟩ := h
    obtain ⟨h1, h2, h3, h4, h5⟩ := cleanup_loop_spec ds s s₁ t₁ hl
    have hmodel : s'.model = none := by
      rw [← hs']
      split
      · rfl
      · rename_i hns
        simpa using hns
    refine ⟨s₁, rfl, h1, by omega, h2, h4, hmodel, ?_, ?_, h5⟩
    · rw [← hs']
      split <;> rfl
    · intro env now
      simp [get_model_info, hmodel]

/-- A state with the `base` model resident and two transcriptions in
flight. -/
def sDrain : ServiceState :=
  { initState with
    model := some ⟨0⟩
    model_size := some "base"
    active_transcriptions := 2 }

/-- The state after draining and cleaning `sDrain`. -/
def sDrained : ServiceState := { initState with executor_shutdown := true }

theorem claim_c7_witness :
    ∃ s₁, cleanup_loop [-1, -1] sDrain = some (s₁, 2) ∧
      s₁.active_transcriptions ≤ 0 ∧
      (0 ≤ s₁.active_transcriptions → s₁.active_transcriptions = 0) ∧
      s₁.model = sDrain.model ∧ s₁.executor_shutdown = sDrain.executor_shutdown ∧
      sDrained.model = none ∧ sDrained.executor_shutdown = true ∧
      (∀ (env : Env) (now : ℚ), (get_model_info env now sDrained).is_loaded = false) ∧
      2 ≤ ([-1, -1] : List Int).length * cleanup_poll_interval :=
  claim_c7_cleanup_drains sDrain [-1, -1] sDrained 2 (by decide)

/-- C8: pydantic construction of a `TranscriptionSegment` rejects every pair
with `end_time ≤ start_time` with the end-after-start validation error, and
every successfully constructed segment satisfies `start_time < end_time`. -/
theorem claim_c8_segment_invariant :
    ∀ (st et : ℚ) (txt : String) (conf : Option ℚ),
      (et ≤ st → TranscriptionSegment.make st et txt conf
        = .error "End time must be after start time") ∧
      (∀ seg, TranscriptionSegment.make st et txt conf = .ok seg →
        seg.start_time = st ∧ seg.end_time = et ∧ seg.start_time < seg.end_time) := by
  intro st et txt conf
  constructor
  · intro h
    unfold TranscriptionSegment.make
    simp [h]
  · intro seg h
    unfold TranscriptionSegment.make at h
    split at h
    · exact Except.noConfusion h
    · rename_i hle
      split at h
      · split at h
        · exact Except.noConfusion h
        · simp only [Except.ok.injEq] at h
          subst h
          exact ⟨rfl, rfl, by simpa using lt_of_not_le hle⟩
      · simp only [Except.ok.injEq] at h
        subst h
        exact ⟨rfl, rfl, by simpa using lt_of_not_le hle⟩

theorem claim_c8_witness :
    TranscriptionSegment.make 1 (1/2) "x" none
      = .error "End time must be after start time" ∧
    ((⟨0, 3/2, "hello", none⟩ : TranscriptionSegment).start_time = 0 ∧
     (⟨0, 3/2, "hello", none⟩ : TranscriptionSegment).end_time = 3/2 ∧
     (⟨0, 3/2, "hello", none⟩ : TranscriptionSegment).start_time
       < (⟨0, 3/2, "hello", none⟩ : TranscriptionSegment).end_time) := by
  constructor
  · exact (claim_c8_segment_invariant 1 (1/2) "x" none).1 (by norm_num)
  · exact (claim_c8_segment_invariant 0 (3/2) "hello" none).2 ⟨0, 3/2, "hello", none⟩
      (by norm_num [TranscriptionSegment.make])


/-- States reachable from the freshly initialized service through the public
operations `load_model`, `transcribe_audio` and `cleanup`. -/
inductive Reachable : ServiceState → Prop where
  | init : Reachable initState
  | load (env : Env) (now : ℚ) (ms : Option String) {s : ServiceState} :
      Reachable s → Reachable (load_model env now s ms).1
  | transcribe (env : Env) (now : ℚ) (fp : String) (ms lang : Option String)
      (temp : ℚ) (task : String) {s : ServiceState} :
      Reachable s → Reachable (transcribe_audio env now s fp ms lang temp task).1
  | cleanupStep (ds : List Int) (t : Nat) {s s' : ServiceState} :
      Reachable s → cleanup s ds = some (s', t) → Reachable s'

/-- The consistency invariant: handle and recorded size are absent together,
and a recorded size is always one of the enumerated model sizes. -/
def StateInv (s : ServiceState) : Prop :=
  (s.model = none ↔ s.model_size = none) ∧
  ∀ sz, s.model_size = some sz → sz ∈ settings.available_model_sizes

theorem stateInv_init : StateInv initState := by
  constructor
  · simp [initState]
  · intro sz hsz
    simp [initState] at hsz

theorem load_model_stateInv (env : Env) (now : ℚ) (s : ServiceState)
    (ms : Option String) (h : StateInv s) : StateInv (load_model env now s ms).1 := by
  rcases load_model_model_cases env now s ms with ⟨h1, h2⟩ | ⟨hd, hsync, h1, h2⟩
  · exact ⟨by rw [h1, h2]; exact h.1, by rw [h2]; exact h.2⟩
  · constructor
    · rw [h1, h2]
      simp
    · rw [h2]
      intro sz hsz
      simp only [Option.some.injEq] at hsz
      subst hsz
      exact _load_model_sync_mem env _ hd hsync

theorem transcribe_stateInv (env : Env) (now : ℚ) (s : ServiceState)
    (fp : String) (ms lang : Option String) (temp : ℚ) (task : String)
    (h : StateInv s) :
    StateInv (transcribe_audio env now s fp ms lang temp task).1 := by
  rcases transcribe_audio_fst_shape env now s fp ms lang temp task with
    hs | hs | ⟨m, _, hs | hs⟩
  · rw [hs]; exact h
  · rw [hs]; exact h
  · rw [hs]; exact load_model_stateInv env now s (some m) h
  · rw [hs]; exact load_model_stateInv env now s (some m) h

theorem cleanup_stateInv (s s' : ServiceState) (ds : List Int) (t : Nat)
    (h : StateInv s) (hc : cleanup s ds = some (s', t)) : StateInv s' := by
  unfold cleanup at hc
  rcases hl : cleanup_loop ds s with _ | ⟨s₁, t₁⟩
  · rw [hl] at hc
    exact absurd hc (by simp)
  · rw [hl] at hc
    simp only [Option.some.injEq, Prod.mk.injEq] at hc
    obtain ⟨hs', rfl⟩ := hc
    obtain ⟨_, h2, h3, _, _⟩ := cleanup_loop_spec ds s s₁ t₁ hl
    rw [← hs']
    split
    · exact ⟨by simp, by intro sz hsz; simp at hsz⟩
    · rename_i hns
      have hmo : s₁.model = none := by simpa using hns
      have hsm : s.model = none := by rw [← h2]; exact hmo
      have hsz : s₁.model_size = none := by rw [h3]; exact h.1.mp hsm
    
      exact ⟨by simp [hmo, hsz], by intro sz h'; rw [hsz] at h'; exact absurd h' (by simp)⟩

/-- Every reachable state satisfies the consistency invariant. -/
theorem reachable_stateInv : ∀ s, Reachable s → StateInv s := by
  intro s h
  induction h with
  | init => exact stateInv_init
  | load env now ms _ ih => exact load_model_stateInv env now _ ms ih
  | transcribe env now fp ms lang temp task _ ih =>
      exact transcribe_stateInv env now _ fp ms lang temp task ih
  | cleanupStep ds t _ hc ih => exact cleanup_stateInv _ _ ds t ih hc

/-- C9: in every reachable state the model handle is `None` exactly when the
recorded size is `None`; accordingly `get_model_info` reports
`is_loaded = true` exactly when it reports a size other than the placeholder
`none`, and reports the placeholder exactly when `is_loaded = false`. -/
theorem claim_c9_model_size_consistency :
    ∀ s, Reachable s →
      (s.model = none ↔ s.model_size = none) ∧
      ∀ (env : Env) (now : ℚ),
        ((get_model_info env now s).is_loaded = true ↔
          (get_model_info env now s).model_size ≠ "none") ∧
        ((get_model_info env now s).model_size = "none" ↔
          (get_model_info env now s).is_loaded = false) := by
  intro s h
  have inv := reachable_stateInv s h
  refine ⟨inv.1, ?_⟩
  intro env now
  rcases hmo : s.model with _ | mh
  · have hsz : s.model_size = none := inv.1.mp hmo
    simp [get_model_info, hmo, hsz]
  · rcases hms : s.model_size with _ | sz
    · have := inv.1.mpr hms
      rw [this] at hmo
      exact absurd hmo (by simp)
    · have hmem := inv.2 sz hms
      have hne : sz ≠ "none" := by
        rintro rfl
        revert hmem
        decide
      have hne2 : sz ≠ "" := by
        rintro rfl
        revert hmem
        decide
      simp [get_model_info, hmo, hms, hne, hne2]

theorem claim_c9_witness :
    (initState.model = none ↔ initState.model_size = none) ∧
    ((get_model_info envA 0 initState).is_loaded = true ↔
      (get_model_info envA 0 initState).model_size ≠ "none") ∧
    ((get_model_info envA 0 initState).model_size = "none" ↔
      (get_model_info envA 0 initState).is_loaded = false) := by
  have h := claim_c9_model_size_consistency initState Reachable.init
  exact ⟨h.1, h.2 envA 0⟩


/-- If any raw segment has a non-positive span (defaults included), building
the pydantic segment list fails. -/
theorem mapM_make_error :
    ∀ (l : List RawSegment),
      (∃ seg ∈ l, seg.end_.getD 0 ≤ seg.start.getD 0) →
      ∃ msg, (l.mapM (fun seg =>
        TranscriptionSegment.make (seg.start.getD 0) (seg.end_.getD 0)
          (pyStrip (seg.text.getD "")) none)
        : Except String (List TranscriptionSegment)) = .error msg := by
  intro l
  induction l with
  | nil =>
    rintro ⟨seg, hin, _⟩
    exact absurd hin (by simp)
  | cons a l ih =>
    rintro ⟨seg, hin, hbad⟩
    rw [List.mapM_cons]
    rcases List.mem_cons.mp hin with rfl | hin2
    · refine ⟨"End time must be after start time", ?_⟩
      unfold TranscriptionSegment.make
      simp [hbad, bind, Except.bind]
    · rcases hfa : TranscriptionSegment.make (a.start.getD 0) (a.end_.getD 0)
          (pyStrip (a.text.getD "")) none with msg | seg2
      · exact ⟨msg, by simp [hfa, bind, Except.bind]⟩
      · rcases ih ⟨seg, hin2, hbad⟩ with ⟨msg, hmsg⟩
        refine ⟨msg, ?_⟩
        simp only [hfa, bind, Except.bind]
        rw [hmsg]

/-- C10: response assembly is not total over raw inference output — any raw
segment whose `end` value (defaulting to 0.0 when the key is missing) is not
greater than its `start` value (same default) makes
`_create_transcription_response` fail with a segment validation error, and
`transcribe_audio` surfaces that failure wrapped as `TranscriptionFailed`. -/
theorem claim_c10_assembler_not_total :
    (∀ (s : ServiceState) (wr : WhisperResult) (fi : FileInfo) (pt : ℚ),
      (∃ seg ∈ wr.segments.getD [], seg.end_.getD 0 ≤ seg.start.getD 0) →
      ∃ msg, _create_transcription_response s wr fi pt = .error msg) ∧
    (transcribe_audio envBadSeg 0 sLoaded "a.mp3" none none 0 "transcribe").2
      = .error (.transcriptionFailed "Transcription failed"
          (some "End time must be after start time") (some "a.mp3")) := by
  constructor
  · intro s wr fi pt hbad
    rcases mapM_make_error _ hbad with ⟨msg, hmsg⟩
    refine ⟨msg, ?_⟩
    unfold _create_transcription_response
    simp only [bind, Except.bind]
    rw [hmsg]
  · simp [transcribe_audio, transcribe_attempt, validate_audio_file, preprocess_audio,
      get_audio_info, validate_file_size, validate_file_format, detect_audio_format,
      _transcribe_sync, _create_transcription_response, TranscriptionSegment.make,
      TranscriptionResponse.make, code_confidence, envBadSeg, envA, fileOk, wrBad,
      sLoaded, initState, settings, Settings.max_file_size_bytes, py_round,
      round_half_even, bind, Except.bind, pure, Except.pure, List.mapM,
      List.mapM.loop, WError.message]

theorem claim_c10_witness :
    ∃ msg, _create_transcription_response sLoaded wrBad fiA 0 = .error msg :=
  (claim_c10_assembler_not_total).1 sLoaded wrBad fiA 0
    ⟨⟨none, none, some "hi", none⟩, by simp [wrBad], by norm_num⟩


end Whisperrr
